import Mathlib

/-!
Shallow embedding of the subprocess-execution utilities (src/cmd/utilities.rs)
and the DigitalOcean helpers (src/cloud_provider/digitalocean/common.rs).

Conventions of the embedding:
- Rust `Path` arguments are modelled by `OsPath`: either a valid UTF-8 string or
  a malformed (non-UTF-8) path, so that `Path::to_str` becomes `OsPath.toStr`.
- A Rust call that can `panic` (an `unwrap` or `expect` on a failing value) is
  modelled by the dedicated `RunResult.panicked` constructor, distinct from a
  returned `Result::Err`.
- The operating system's behaviour for one invocation (did `spawn` succeed, the
  items each output stream yields, the result of `wait`) is an explicit input
  `OsProcess`, since the embedding cannot perform I/O.
- Handler callbacks are modelled by the trace of their invocations: each call of
  the stdout (resp. stderr) handler becomes a `StreamEvent.out` (resp.
  `StreamEvent.err`) entry, in call order.
-/

namespace Engine

/-- Abstract model of a Rust `std::io::Error` value. -/
structure OsError where
  code : Nat
deriving DecidableEq

/-- Model of `std::process::ExitStatus`: `code = some n` is a normal exit with
code `n`; `code = none` is termination by a signal. -/
structure ExitStatus where
  code : Option Int
deriving DecidableEq

/-- Model of `ExitStatus::success()`: a normal exit with code zero. -/
def ExitStatus.success (s : ExitStatus) : Bool :=
  s.code = some 0

/-- Modelled from the spec and the uses in src: the crate's error module is not
under src; the two kinds visible in src are `Command(exit_status)` (a process
ran and exited unsuccessfully) and `Other`. -/
inductive SimpleErrorKind where
  | Command (status : ExitStatus)
  | Other
deriving DecidableEq

/-- Modelled from the spec and the uses in src: `SimpleError::new(kind, message)`
carries an error kind and an optional message. -/
structure SimpleError where
  kind : SimpleErrorKind
  message : Option String
deriving DecidableEq

/-- Modelled from the spec: the `From io::Error` conversion for `SimpleError`
lives in the crate's error module, which is not under src. The spec describes a
wait failure as a typed error distinct from `Command`; it is modelled as an
`Other`-kind `SimpleError`. No claim depends on its exact shape. -/
def SimpleError.fromOs (_e : OsError) : SimpleError :=
  ⟨SimpleErrorKind.Other, none⟩

/-- A Rust `Path`/`OsStr`: either valid UTF-8 text or malformed bytes. -/
inductive OsPath where
  | utf8 (s : String)
  | nonUtf8
deriving DecidableEq

/-- Model of `Path::to_str`: `some` exactly for valid UTF-8. -/
def OsPath.toStr : OsPath → Option String
  | .utf8 s => some s
  | .nonUtf8 => none

/-- Result of running a piece of Rust code that may return `Ok`, return a
`SimpleError`, or panic (a failing `unwrap`). -/
inductive RunResult (α : Type) where
  | ok (a : α)
  | err (e : SimpleError)
  | panicked
deriving DecidableEq

/-- Model of a `Stdio` configuration for one of the three standard streams. -/
inductive StdioCfg where
  | piped
  | null
  | inherit
deriving DecidableEq

/-- Model of a configured `std::process::Command`: program, arguments, optional
working directory, added environment pairs, and the stream configurations. -/
structure Cmd where
  program : String
  args : List String
  cwd : Option String
  envs : List (String × String)
  stdin : StdioCfg
  stdout : StdioCfg
  stderr : StdioCfg
deriving DecidableEq

/-- Worker for `splitWhitespace`: `cur` holds the characters of the token in
progress, in reverse order. -/
def splitWhitespaceAux : List Char → List Char → List String
  | [], cur => if cur.isEmpty then [] else [String.mk cur.reverse]
  | c :: cs, cur =>
    if c.isWhitespace then
      if cur.isEmpty then splitWhitespaceAux cs []
      else String.mk cur.reverse :: splitWhitespaceAux cs []
    else splitWhitespaceAux cs (c :: cur)

/-- Model of Rust `str::split_whitespace`: the maximal runs of non-whitespace
characters, in order; never yields an empty token. -/
def splitWhitespace (s : String) : List String :=
  splitWhitespaceAux s.data []

/-- Embedding of `command` (src/src/cmd/utilities.rs, lines 18-56): split the
binary locator on whitespace; with one token, that token is the program and no
working directory is set; with two or more, the first token is the working
directory and the second the program; both output streams are piped. The
`to_str().unwrap()` panics on a malformed locator, and `first().unwrap()`
panics when the split yields no token. -/
def command (binary : OsPath) (args : List String)
    (envs : Option (List (String × String))) : RunResult Cmd :=
  match binary.toStr with
  | none => .panicked
  | some s =>
    match splitWhitespace s with
    | [] => .panicked
    | [t] => .ok ⟨t, args, none, envs.getD [], .inherit, .piped, .piped⟩
    | t0 :: t1 :: _ => .ok ⟨t1, args, some t0, envs.getD [], .inherit, .piped, .piped⟩

/-- Embedding of `command_to_string` (utilities.rs, lines 238-243):
`format!("\x7b\x7d \x7b\x7d", binary.to_str().unwrap(), args.join(" "))`. -/
def command_to_string (binary : OsPath) (args : List String) : RunResult String :=
  match binary.toStr with
  | none => .panicked
  | some s => .ok (s ++ " " ++ String.intercalate " " args)

/-- Embedding of `command_with_envs_to_string` (utilities.rs, lines 245-264):
the space-joined `NAME=value` pairs, then the raw locator text, then the
space-joined arguments. -/
def command_with_envs_to_string (binary : OsPath) (args : List String)
    (envs : List (String × String)) : RunResult String :=
  match binary.toStr with
  | none => .panicked
  | some s =>
    .ok (String.intercalate " " (envs.map (fun p => p.1 ++ "=" ++ p.2))
      ++ " " ++ s ++ " " ++ String.intercalate " " args)

/-- The operating system's behaviour for one invocation: whether `spawn`
succeeded, the items each captured stream yields (a line read successfully, or
a read error), and the result of `wait`. -/
structure OsProcess where
  spawnOk : Bool
  stdoutItems : List (Except OsError String)
  stderrItems : List (Except OsError String)
  waitResult : Except OsError ExitStatus

deriving instance DecidableEq for Except

/-- One handler invocation made by the stream drainer: `out` is a call of the
stdout handler, `err` a call of the stderr handler, each carrying the line or
read error passed to it. -/
inductive StreamEvent where
  | out (item : Except OsError String)
  | err (item : Except OsError String)
deriving DecidableEq

/-- Is this event a stdout-handler invocation? -/
def StreamEvent.isOut : StreamEvent → Bool
  | .out _ => true
  | .err _ => false

/-- Embedding of `_with_output` (utilities.rs, lines 106-122) as the trace of
handler invocations it performs: a first loop passes every stdout item to the
stdout handler, then a second loop passes every stderr item to the stderr
handler. -/
def _with_output (stdoutItems stderrItems : List (Except OsError String)) :
    List StreamEvent :=
  stdoutItems.map StreamEvent.out ++ stderrItems.map StreamEvent.err

/-- Embedding of `exec` (utilities.rs, lines 58-78): format the command string
(`to_str().unwrap()` panics on a malformed locator), build the command
(panics likewise, and on an empty token list), `spawn().unwrap()` (panics when
the OS cannot create the process), then `wait()` and map the exit status. -/
def exec (binary : OsPath) (args : List String) (p : OsProcess) : RunResult Unit :=
  match command_to_string binary args with
  | .panicked => .panicked
  | _ =>
    match command binary args none with
    | .panicked => .panicked
    | _ =>
      if p.spawnOk then
        match p.waitResult with
        | .error e => .err (SimpleError.fromOs e)
        | .ok x =>
          if x.success then .ok ()
          else .err ⟨.Command x, some "error while executing an internal command"⟩
      else .panicked

/-- Embedding of `exec_with_envs` (utilities.rs, lines 80-104): as `exec` but
with environment overrides passed to the builder and the formatter. -/
def exec_with_envs (binary : OsPath) (args : List String)
    (envs : List (String × String)) (p : OsProcess) : RunResult Unit :=
  match command_with_envs_to_string binary args envs with
  | .panicked => .panicked
  | _ =>
    match command binary args (some envs) with
    | .panicked => .panicked
    | _ =>
      if p.spawnOk then
        match p.waitResult with
        | .error e => .err (SimpleError.fromOs e)
        | .ok x =>
          if x.success then .ok ()
          else .err ⟨.Command x, some "error while executing an internal command"⟩
      else .panicked

/-- Embedding of `exec_with_output` (utilities.rs, lines 124-157): as `exec`,
but the spawned child is passed through `_with_output`, whose handler
invocation trace is returned alongside the result. -/
def exec_with_output (binary : OsPath) (args : List String) (p : OsProcess) :
    RunResult Unit × List StreamEvent :=
  match command_to_string binary args with
  | .panicked => (.panicked, [])
  | _ =>
    match command binary args none with
    | .panicked => (.panicked, [])
    | _ =>
      if p.spawnOk then
        let events := _with_output p.stdoutItems p.stderrItems
        match p.waitResult with
        | .error e => (.err (SimpleError.fromOs e), events)
        | .ok x =>
          if x.success then (.ok (), events)
          else (.err ⟨.Command x, some "error while executing an internal command"⟩, events)
      else (.panicked, [])

/-- Embedding of `exec_with_envs_and_output` (utilities.rs, lines 159-193). -/
def exec_with_envs_and_output (binary : OsPath) (args : List String)
    (envs : List (String × String)) (p : OsProcess) :
    RunResult Unit × List StreamEvent :=
  match command_with_envs_to_string binary args envs with
  | .panicked => (.panicked, [])
  | _ =>
    match command binary args (some envs) with
    | .panicked => (.panicked, [])
    | _ =>
      if p.spawnOk then
        let events := _with_output p.stdoutItems p.stderrItems
        match p.waitResult with
        | .error e => (.err (SimpleError.fromOs e), events)
        | .ok x =>
          if x.success then (.ok (), events)
          else (.err ⟨.Command x, some "error while executing an internal command"⟩, events)
      else (.panicked, [])

/-- An OS-level action on the child process, for tracking what
`does_binary_exist` does with the process it creates. -/
inductive OsAction where
  | spawn
  | wait
  | kill
deriving DecidableEq

/-- Embedding of `does_binary_exist` (utilities.rs, lines 223-236): build a
command with stdin, stdout and stderr all null, attempt a spawn, and return
`true` exactly when the spawn succeeded. The returned triple records the
result, the command configuration, and the trace of OS actions performed on
the child: the `Ok(_)` arm discards the child handle, so the only action is
the spawn itself — no wait and no kill. -/
def does_binary_exist (binary : String) (spawnOk : Bool) :
    Bool × Cmd × List OsAction :=
  (spawnOk,
   ⟨binary, [], none, [], .null, .null, .null⟩,
   [OsAction.spawn])

/-- Modelled from the spec: the cluster payload types live in
`cloud_provider/digitalocean/api_structs/clusters.rs`, which is not under src.
The spec describes the JSON body as enumerating clusters, each with an
identifier and a name; src accesses the fields `kubernetes_clusters`,
`cluster.id` and `cluster.name`. -/
structure Cluster where
  id : String
  name : String
deriving DecidableEq

/-- Modelled from the spec: the top-level clusters-listing payload, a list of
clusters under the `kubernetes_clusters` key. -/
structure Clusters where
  kubernetes_clusters : List Cluster
deriving DecidableEq

/-- The loop body of `search_uuid_cluster_for`: walk the list and return the
id of the first cluster whose name equals the query exactly. -/
def searchClusterList (kubeName : String) : List Cluster → Option String
  | [] => none
  | c :: rest => if c.name = kubeName then some c.id else searchClusterList kubeName rest

/-- Embedding of `search_uuid_cluster_for` (common.rs, lines 105-113). -/
def search_uuid_cluster_for (kubeName : String) (clusters : Clusters) : Option String :=
  searchClusterList kubeName clusters.kubernetes_clusters

/-- The HTTP layer's behaviour for the one GET issued by
`get_uuid_of_cluster`: either the request failed at the network level, or a
response arrived with a status code and a body whose JSON decoding either
succeeded (`Except.ok`) or failed (`Except.error`). -/
inductive ApiResponse where
  | netFail
  | reply (status : Nat) (body : Except Unit Clusters)

/-- Embedding of `get_uuid_of_cluster` (common.rs, lines 57-103): on a network
failure, a non-200 status, a JSON-decode failure, or no cluster of the queried
name, return the corresponding `SimpleError`; otherwise return the matched
cluster id. -/
def get_uuid_of_cluster (token kubeID : String) (res : ApiResponse) :
    Except SimpleError String :=
  match res with
  | .netFail =>
    .error ⟨.Other, some "Unable to get any responses from Digital Ocean"⟩
  | .reply status body =>
    if status = 200 then
      match body with
      | .ok clusters =>
        match search_uuid_cluster_for kubeID clusters with
        | some uuid => .ok uuid
        | none =>
          .error ⟨.Other, some "Unable to retrieve cluster id from this name"⟩
      | .error _ =>
        .error ⟨.Other, some "While trying to deserialize json received from Digital Ocean API"⟩
    else
      .error ⟨.Other, some "Receive weird status Code from Digital Ocean while retrieving the cluster list"⟩

/-- Embedding of `kubernetes_config_path` (common.rs, lines 11-42). The local
filesystem is an association list from path to content (newest first); the
object-storage client `download_space_object` is an explicit input, called
with the access id, the secret key, the computed bucket name, the computed
object key and the region. On a download error, that error is returned as-is
and the filesystem is untouched; on success the body is written to the
computed path, which is returned. -/
def kubernetes_config_path (workspace_directory kubernetes_cluster_id region
    spaces_secret_key spaces_access_id : String)
    (download_space_object :
      String → String → String → String → String → Except SimpleError String)
    (fs : List (String × String)) :
    Except SimpleError String × List (String × String) :=
  let kubernetes_config_bucket_name := "qovery-kubeconfigs-" ++ kubernetes_cluster_id
  let kubernetes_config_object_key := kubernetes_cluster_id ++ ".yaml"
  let kubernetes_config_file_path :=
    workspace_directory ++ "/kubernetes_config_" ++ kubernetes_cluster_id
  match download_space_object spaces_access_id spaces_secret_key
      kubernetes_config_bucket_name kubernetes_config_object_key region with
  | .ok body => (.ok kubernetes_config_file_path, (kubernetes_config_file_path, body) :: fs)
  | .error e => (.error e, fs)

/-- A download client that always fails, used as a concrete instantiation. -/
def downloadAlwaysFails :
    String → String → String → String → String → Except SimpleError String :=
  fun _ _ _ _ _ => Except.error ⟨SimpleErrorKind.Other, some "download failed"⟩

/-- A download client that always yields a fixed body, used as a concrete
instantiation. -/
def downloadAlwaysYields :
    String → String → String → String → String → Except SimpleError String :=
  fun _ _ _ _ _ => Except.ok "kubeconfig-body"

/-- The items passed to the stdout handler, in order, extracted from a
handler-invocation trace. -/
def outItems (tr : List StreamEvent) : List (Except OsError String) :=
  tr.filterMap (fun ev => match ev with | .out i => some i | .err _ => none)

/-- The items passed to the stderr handler, in order, extracted from a
handler-invocation trace. -/
def errItems (tr : List StreamEvent) : List (Except OsError String) :=
  tr.filterMap (fun ev => match ev with | .err i => some i | .out _ => none)

/-- Helper: in a trace made of all stdout events followed by all stderr
events, the `isOut` prefix is exactly the stdout part. -/
theorem takeWhile_out_of_seq_trace (a b : List (Except OsError String)) :
    (a.map StreamEvent.out ++ b.map StreamEvent.err).takeWhile StreamEvent.isOut
      = a.map StreamEvent.out := by
  induction a with
  | nil =>
    cases b with
    | nil => rfl
    | cons x xs => rfl
  | cons x xs ih => simp [List.takeWhile_cons, StreamEvent.isOut, ih]

/-- Helper: in a trace made of all stdout events followed by all stderr
events, what remains after the `isOut` prefix is exactly the stderr part. -/
theorem dropWhile_out_of_seq_trace (a b : List (Except OsError String)) :
    (a.map StreamEvent.out ++ b.map StreamEvent.err).dropWhile StreamEvent.isOut
      = b.map StreamEvent.err := by
  induction a with
  | nil =>
    cases b with
    | nil => rfl
    | cons x xs => rfl
  | cons x xs ih => simp [List.dropWhile_cons, StreamEvent.isOut, ih]

/-- Claim C1, code-bug evidence: the stream drainer of `_with_output` is
sequential, not concurrent. In its handler-invocation trace, the entire
standard-output stream is consumed before the first standard-error item is
handled: the leading run of stdout-handler calls is the whole stdout stream,
and everything after it is the stderr stream. A child that blocks writing a
full standard-error pipe before closing standard output therefore deadlocks
against this reader, contrary to the claimed concurrent drainage. -/
theorem with_output_drains_stdout_fully_before_stderr
    (stdoutItems stderrItems : List (Except OsError String)) :
    ( _with_output stdoutItems stderrItems).takeWhile StreamEvent.isOut
        = stdoutItems.map StreamEvent.out ∧
      ( _with_output stdoutItems stderrItems).dropWhile StreamEvent.isOut
        = stderrItems.map StreamEvent.err :=
  ⟨takeWhile_out_of_seq_trace stdoutItems stderrItems,
   dropWhile_out_of_seq_trace stdoutItems stderrItems⟩

/-- Claim C2, counterexample: on binary locator "/tmp/work mytool", arguments
["--flag", "x"] and environment [("FOO", "bar")], the formatter does not
return the claimed string "FOO=bar /tmp/work --flag x". -/
theorem command_with_envs_to_string_claimed_value_refuted :
    command_with_envs_to_string (OsPath.utf8 "/tmp/work mytool") ["--flag", "x"]
      [("FOO", "bar")] ≠ RunResult.ok "FOO=bar /tmp/work --flag x" := by
  decide

/-- Claim C2, amended: the formatter renders the binary locator verbatim,
without whitespace-splitting it, so on the same input it returns exactly
"FOO=bar /tmp/work mytool --flag x": space-joined NAME=value pairs, then the
full locator text, then the space-joined arguments. -/
theorem command_with_envs_to_string_on_example :
    command_with_envs_to_string (OsPath.utf8 "/tmp/work mytool") ["--flag", "x"]
      [("FOO", "bar")] = RunResult.ok "FOO=bar /tmp/work mytool --flag x" := by
  decide

/-- Claim C4, code-bug evidence: a malformed (non-UTF-8) binary locator makes
the command builder and both formatters panic (a failing `unwrap` on
`to_str()`) instead of returning a typed InvalidInput error, while on every
well-formed locator the formatter succeeds and never fails. -/
theorem builder_and_formatter_panic_on_malformed_locator
    (args : List String) (envs : List (String × String)) :
    command OsPath.nonUtf8 args (some envs) = RunResult.panicked ∧
    command OsPath.nonUtf8 args none = RunResult.panicked ∧
    command_to_string OsPath.nonUtf8 args = RunResult.panicked ∧
    command_with_envs_to_string OsPath.nonUtf8 args envs = RunResult.panicked ∧
    (∀ s : String, command_to_string (OsPath.utf8 s) args
      = RunResult.ok (s ++ " " ++ String.intercalate " " args)) ∧
    (∀ s : String, command_with_envs_to_string (OsPath.utf8 s) args envs
      = RunResult.ok (String.intercalate " " (envs.map (fun p => p.1 ++ "=" ++ p.2))
          ++ " " ++ s ++ " " ++ String.intercalate " " args)) :=
  ⟨rfl, rfl, rfl, rfl, fun _ => rfl, fun _ => rfl⟩

/-- Claim C7, code-bug evidence: `does_binary_exist` returns exactly the spawn
outcome, with stdin, stdout and stderr all suppressed, and the only OS action
it ever performs on the child is the spawn itself: it never waits on it and
never kills it, so a successfully created process is left behind running,
unreaped. -/
theorem does_binary_exist_spawns_and_never_reaps (binary : String) (spawnOk : Bool) :
    (does_binary_exist binary spawnOk).1 = spawnOk ∧
    (does_binary_exist binary spawnOk).2.1.stdin = StdioCfg.null ∧
    (does_binary_exist binary spawnOk).2.1.stdout = StdioCfg.null ∧
    (does_binary_exist binary spawnOk).2.1.stderr = StdioCfg.null ∧
    OsAction.spawn ∈ (does_binary_exist binary spawnOk).2.2 ∧
    OsAction.wait ∉ (does_binary_exist binary spawnOk).2.2 ∧
    OsAction.kill ∉ (does_binary_exist binary spawnOk).2.2 := by
  refine ⟨rfl, rfl, rfl, rfl, ?_, ?_, ?_⟩ <;> simp [does_binary_exist]

/-- Helper: an exit status is a success exactly when it is a normal exit with
code zero. -/
theorem ExitStatus.success_iff (st : ExitStatus) :
    st.success = true ↔ st.code = some 0 := by
  simp [ExitStatus.success]

/-- Helper: extracting the stdout items from a sequential trace recovers the
stdout stream. -/
theorem outItems_seq_trace (a b : List (Except OsError String)) :
    outItems (a.map StreamEvent.out ++ b.map StreamEvent.err) = a := by
  induction a with
  | nil =>
    induction b with
    | nil => rfl
    | cons x xs ih => simpa [outItems, List.filterMap_cons] using ih
  | cons x xs ih => simpa [outItems, List.filterMap_cons] using ih

/-- Helper: extracting the stderr items from a sequential trace recovers the
stderr stream. -/
theorem errItems_seq_trace (a b : List (Except OsError String)) :
    errItems (a.map StreamEvent.out ++ b.map StreamEvent.err) = b := by
  induction a with
  | nil =>
    induction b with
    | nil => rfl
    | cons x xs ih => simpa [errItems, List.filterMap_cons] using ih
  | cons x xs ih => simpa [errItems, List.filterMap_cons] using ih

/-- Helper: when the locator is well-formed and the spawn succeeds, the trace
returned by `exec_with_output` is exactly the drainer trace of the two
streams, whatever `wait` then returns. -/
theorem exec_with_output_trace (s : String) (args : List String) (p : OsProcess)
    (htok : splitWhitespace s ≠ []) (hspawn : p.spawnOk = true) :
    (exec_with_output (OsPath.utf8 s) args p).2
      = _with_output p.stdoutItems p.stderrItems := by
  rcases h : splitWhitespace s with _ | ⟨t, ts⟩
  · exact absurd h htok
  · cases ts with
    | nil =>
      rcases hw : p.waitResult with e | x
      · simp [exec_with_output, command_to_string, command, OsPath.toStr, h, hspawn, hw]
      · by_cases hs : x.success <;>
          simp [exec_with_output, command_to_string, command, OsPath.toStr, h, hspawn, hw, hs]
    | cons t1 rest =>
      rcases hw : p.waitResult with e | x
      · simp [exec_with_output, command_to_string, command, OsPath.toStr, h, hspawn, hw]
      · by_cases hs : x.success <;>
          simp [exec_with_output, command_to_string, command, OsPath.toStr, h, hspawn, hw, hs]

/-- Claim C6: for a well-formed locator and a successful spawn, the stdout
handler of `exec_with_output` is invoked once per stdout item and the stderr
handler once per stderr item, each invocation carrying exactly that item (a
full line, or the read error), in stream order — so K stdout lines give
exactly K stdout-handler calls and M stderr lines exactly M stderr-handler
calls before the call returns, and a read error among the items of one stream
leaves the other stream's invocation sequence intact. -/
theorem exec_with_output_handler_invocations (s : String) (args : List String)
    (p : OsProcess) (htok : splitWhitespace s ≠ []) (hspawn : p.spawnOk = true) :
    outItems (exec_with_output (OsPath.utf8 s) args p).2 = p.stdoutItems ∧
    errItems (exec_with_output (OsPath.utf8 s) args p).2 = p.stderrItems := by
  rw [exec_with_output_trace s args p htok hspawn]
  exact ⟨outItems_seq_trace _ _, errItems_seq_trace _ _⟩

/-- Witness for C6: a concrete run with two stdout lines, one stderr read
error and one stderr line reproduces exactly those handler invocations. -/
theorem exec_with_output_handler_invocations_witness :
    outItems (exec_with_output (OsPath.utf8 "mytool") ["--version"]
        ⟨true, [Except.ok "line one", Except.ok "line two"],
         [Except.error ⟨5⟩, Except.ok "warn"], Except.ok ⟨some 0⟩⟩).2
      = [Except.ok "line one", Except.ok "line two"] ∧
    errItems (exec_with_output (OsPath.utf8 "mytool") ["--version"]
        ⟨true, [Except.ok "line one", Except.ok "line two"],
         [Except.error ⟨5⟩, Except.ok "warn"], Except.ok ⟨some 0⟩⟩).2
      = [Except.error ⟨5⟩, Except.ok "warn"] :=
  exec_with_output_handler_invocations "mytool" ["--version"]
    ⟨true, [Except.ok "line one", Except.ok "line two"],
     [Except.error ⟨5⟩, Except.ok "warn"], Except.ok ⟨some 0⟩⟩ (by decide) rfl

/-- Claim C5: for a process that is successfully launched and waited on, `exec`
returns success exactly when the exit status is a normal exit with code zero,
and for any nonzero exit code N it returns the typed failure carrying the full
exit status object (which reports code N exactly), never a bare boolean. -/
theorem exec_success_iff_zero_exit (s : String) (args : List String)
    (p : OsProcess) (st : ExitStatus)
    (htok : splitWhitespace s ≠ []) (hspawn : p.spawnOk = true)
    (hwait : p.waitResult = Except.ok st) :
    (exec (OsPath.utf8 s) args p = RunResult.ok () ↔ st.code = some 0) ∧
    (∀ N : Int, N ≠ 0 → st.code = some N →
      exec (OsPath.utf8 s) args p
        = RunResult.err ⟨SimpleErrorKind.Command st,
            some "error while executing an internal command"⟩) := by
  have hred : exec (OsPath.utf8 s) args p
      = if st.success then RunResult.ok ()
        else RunResult.err ⟨SimpleErrorKind.Command st,
          some "error while executing an internal command"⟩ := by
    rcases h : splitWhitespace s with _ | ⟨t, ts⟩
    · exact absurd h htok
    · cases ts <;>
        simp [exec, command_to_string, command, OsPath.toStr, h, hspawn, hwait]
  constructor
  · rw [hred]
    by_cases hs : st.success = true
    · simp [hs, (ExitStatus.success_iff st).mp hs]
    · simp [hs]
      exact fun hc => absurd ((ExitStatus.success_iff st).mpr hc) hs
  · intro N hN hcode
    have hs : ¬ st.success = true := by
      rw [ExitStatus.success_iff st, hcode]
      intro hsome
      exact hN (Option.some_injective _ hsome)
    rw [hred, if_neg hs]

/-- Witness for C5: a zero exit yields success, and exit code 3 yields the
failure carrying the full status with code 3. -/
theorem exec_success_iff_zero_exit_witness :
    exec (OsPath.utf8 "mytool") [] ⟨true, [], [], Except.ok ⟨some 0⟩⟩
      = RunResult.ok () ∧
    exec (OsPath.utf8 "mytool") [] ⟨true, [], [], Except.ok ⟨some 3⟩⟩
      = RunResult.err ⟨SimpleErrorKind.Command ⟨some 3⟩,
          some "error while executing an internal command"⟩ :=
  ⟨(exec_success_iff_zero_exit "mytool" [] ⟨true, [], [], Except.ok ⟨some 0⟩⟩
      ⟨some 0⟩ (by decide) rfl rfl).1.mpr rfl,
   (exec_success_iff_zero_exit "mytool" [] ⟨true, [], [], Except.ok ⟨some 3⟩⟩
      ⟨some 3⟩ (by decide) rfl rfl).2 3 (by decide) rfl⟩

/-- Claim C3, code-bug evidence: when the OS cannot create the process, every
entry point panics (a failing `unwrap` on `spawn()`) instead of returning a
typed launch-failure error to the caller. -/
theorem entry_points_panic_on_launch_failure (s : String) (args : List String)
    (envs : List (String × String)) (p : OsProcess)
    (htok : splitWhitespace s ≠ []) (hspawn : p.spawnOk = false) :
    exec (OsPath.utf8 s) args p = RunResult.panicked ∧
    exec_with_envs (OsPath.utf8 s) args envs p = RunResult.panicked ∧
    (exec_with_output (OsPath.utf8 s) args p).1 = RunResult.panicked ∧
    (exec_with_envs_and_output (OsPath.utf8 s) args envs p).1 = RunResult.panicked := by
  rcases h : splitWhitespace s with _ | ⟨t, ts⟩
  · exact absurd h htok
  · cases ts <;>
      simp [exec, exec_with_envs, exec_with_output, exec_with_envs_and_output,
        command_to_string, command_with_envs_to_string, command, OsPath.toStr, h, hspawn]

/-- Witness for C3: a concrete failed spawn makes all four entry points
panic. -/
theorem entry_points_panic_on_launch_failure_witness :
    exec (OsPath.utf8 "missing-binary") []
        ⟨false, [], [], Except.ok ⟨some 0⟩⟩ = RunResult.panicked ∧
    exec_with_envs (OsPath.utf8 "missing-binary") [] [("A", "b")]
        ⟨false, [], [], Except.ok ⟨some 0⟩⟩ = RunResult.panicked ∧
    (exec_with_output (OsPath.utf8 "missing-binary") []
        ⟨false, [], [], Except.ok ⟨some 0⟩⟩).1 = RunResult.panicked ∧
    (exec_with_envs_and_output (OsPath.utf8 "missing-binary") [] [("A", "b")]
        ⟨false, [], [], Except.ok ⟨some 0⟩⟩).1 = RunResult.panicked :=
  entry_points_panic_on_launch_failure "missing-binary" [] [("A", "b")]
    ⟨false, [], [], Except.ok ⟨some 0⟩⟩ (by decide) rfl

/-- Claim C9: on a well-formed locator, the builder splits on whitespace; one
token leaves the working directory unset and makes that token the program; two
or more tokens make the first the working directory and the second the
program, with the remaining tokens not influencing the result; in both cases
stdout and stderr are configured as captured pipes. -/
theorem command_builder_spec (s : String) (args : List String)
    (envs : Option (List (String × String))) :
    (∀ t, splitWhitespace s = [t] →
      command (OsPath.utf8 s) args envs
        = RunResult.ok ⟨t, args, none, envs.getD [],
            StdioCfg.inherit, StdioCfg.piped, StdioCfg.piped⟩) ∧
    (∀ t0 t1 rest, splitWhitespace s = t0 :: t1 :: rest →
      command (OsPath.utf8 s) args envs
        = RunResult.ok ⟨t1, args, some t0, envs.getD [],
            StdioCfg.inherit, StdioCfg.piped, StdioCfg.piped⟩) := by
  constructor
  · intro t h
    simp [command, OsPath.toStr, h]
  · intro t0 t1 rest h
    simp [command, OsPath.toStr, h]

/-- Witness for C9: a one-token locator keeps no working directory; a
three-token locator uses the first token as directory, the second as program,
and ignores the third. -/
theorem command_builder_spec_witness :
    command (OsPath.utf8 "mytool") ["-a"] none
      = RunResult.ok ⟨"mytool", ["-a"], none, [],
          StdioCfg.inherit, StdioCfg.piped, StdioCfg.piped⟩ ∧
    command (OsPath.utf8 "/tmp/work mytool extra") ["-a"] (some [("A", "b")])
      = RunResult.ok ⟨"mytool", ["-a"], some "/tmp/work", [("A", "b")],
          StdioCfg.inherit, StdioCfg.piped, StdioCfg.piped⟩ :=
  ⟨(command_builder_spec "mytool" ["-a"] none).1 "mytool" (by decide),
   (command_builder_spec "/tmp/work mytool extra" ["-a"] (some [("A", "b")])).2
     "/tmp/work" "mytool" ["extra"] (by decide)⟩

/-- Helper: a successful cluster search returns the id of a cluster in the
list whose name is exactly the query. -/
theorem searchClusterList_some (k uuid : String) (l : List Cluster)
    (h : searchClusterList k l = some uuid) :
    ∃ c ∈ l, c.name = k ∧ c.id = uuid := by
  induction l with
  | nil => simp [searchClusterList] at h
  | cons c rest ih =>
    by_cases hc : c.name = k
    · simp [searchClusterList, hc] at h
      exact ⟨c, List.mem_cons_self c rest, hc, h⟩
    · simp [searchClusterList, hc] at h
      obtain ⟨d, hd, h1, h2⟩ := ih h
      exact ⟨d, List.mem_cons_of_mem c hd, h1, h2⟩

/-- Helper: when no cluster in the list bears the queried name, the search
returns none. -/
theorem searchClusterList_none (k : String) (l : List Cluster)
    (h : ∀ c ∈ l, c.name ≠ k) : searchClusterList k l = none := by
  induction l with
  | nil => rfl
  | cons c rest ih =>
    have hc : c.name ≠ k := h c (List.mem_cons_self c rest)
    simp [searchClusterList, hc]
    exact ih fun d hd => h d (List.mem_cons_of_mem c hd)

/-- Claim C8: the cluster lookup returns an identifier only for a cluster of
the listing whose name equals the queried name exactly (never a false
identifier); when the listing holds no cluster of that name it returns the
typed no-match error; and a network failure, a non-200 status and a
JSON-decode failure each return their own typed error. -/
theorem get_uuid_of_cluster_spec (token kubeID : String) (res : ApiResponse) :
    (∀ uuid, get_uuid_of_cluster token kubeID res = Except.ok uuid →
      ∃ clusters, res = ApiResponse.reply 200 (Except.ok clusters) ∧
        ∃ c ∈ clusters.kubernetes_clusters, c.name = kubeID ∧ c.id = uuid) ∧
    (∀ clusters, res = ApiResponse.reply 200 (Except.ok clusters) →
      (∀ c ∈ clusters.kubernetes_clusters, c.name ≠ kubeID) →
      get_uuid_of_cluster token kubeID res
        = Except.error ⟨SimpleErrorKind.Other,
            some "Unable to retrieve cluster id from this name"⟩) ∧
    (res = ApiResponse.netFail →
      get_uuid_of_cluster token kubeID res
        = Except.error ⟨SimpleErrorKind.Other,
            some "Unable to get any responses from Digital Ocean"⟩) ∧
    (∀ status body, status ≠ 200 → res = ApiResponse.reply status body →
      get_uuid_of_cluster token kubeID res
        = Except.error ⟨SimpleErrorKind.Other,
            some "Receive weird status Code from Digital Ocean while retrieving the cluster list"⟩) ∧
    (∀ e, res = ApiResponse.reply 200 (Except.error e) →
      get_uuid_of_cluster token kubeID res
        = Except.error ⟨SimpleErrorKind.Other,
            some "While trying to deserialize json received from Digital Ocean API"⟩) := by
  refine ⟨?_, ?_, ?_, ?_, ?_⟩
  · intro uuid hok
    cases res with
    | netFail => simp [get_uuid_of_cluster] at hok
    | reply status body =>
      by_cases h200 : status = 200
      · subst h200
        cases body with
        | ok clusters =>
          rcases hs : searchClusterList kubeID clusters.kubernetes_clusters with _ | u
          · simp [get_uuid_of_cluster, search_uuid_cluster_for, hs] at hok
          · simp [get_uuid_of_cluster, search_uuid_cluster_for, hs] at hok
            obtain ⟨c, hc, h1, h2⟩ :=
              searchClusterList_some kubeID u clusters.kubernetes_clusters hs
            exact ⟨clusters, rfl, c, hc, h1, hok ▸ h2⟩
        | error e => simp [get_uuid_of_cluster] at hok
      · simp [get_uuid_of_cluster, h200] at hok
  · intro clusters hres hnone
    subst hres
    simp [get_uuid_of_cluster, search_uuid_cluster_for,
      searchClusterList_none kubeID clusters.kubernetes_clusters hnone]
  · intro hres
    subst hres
    rfl
  · intro status body h200 hres
    subst hres
    simp [get_uuid_of_cluster, h200]
  · intro e hres
    subst hres
    rfl

/-- Witness for C8: a listing without the queried name yields the typed
no-match error, and a network failure yields the typed network error. -/
theorem get_uuid_of_cluster_spec_witness :
    get_uuid_of_cluster "token-1" "prod"
        (ApiResponse.reply 200 (Except.ok ⟨[⟨"id-1", "staging"⟩]⟩))
      = Except.error ⟨SimpleErrorKind.Other,
          some "Unable to retrieve cluster id from this name"⟩ ∧
    get_uuid_of_cluster "token-1" "prod" ApiResponse.netFail
      = Except.error ⟨SimpleErrorKind.Other,
          some "Unable to get any responses from Digital Ocean"⟩ :=
  ⟨(get_uuid_of_cluster_spec "token-1" "prod"
      (ApiResponse.reply 200 (Except.ok ⟨[⟨"id-1", "staging"⟩]⟩))).2.1
      ⟨[⟨"id-1", "staging"⟩]⟩ rfl (by decide),
   (get_uuid_of_cluster_spec "token-1" "prod" ApiResponse.netFail).2.2.1 rfl⟩

/-- Claim C10: when the object-storage download fails, `kubernetes_config_path`
returns exactly the download client's error, unchanged, and the filesystem is
untouched; only on success is the file at
workspace_directory/kubernetes_config_(cluster id) written with the body
verbatim and that path returned. -/
theorem kubernetes_config_path_spec (wd cid region sk ak : String)
    (download : String → String → String → String → String → Except SimpleError String)
    (fs : List (String × String)) :
    (∀ e, download ak sk ("qovery-kubeconfigs-" ++ cid) (cid ++ ".yaml") region
        = Except.error e →
      kubernetes_config_path wd cid region sk ak download fs = (Except.error e, fs)) ∧
    (∀ body, download ak sk ("qovery-kubeconfigs-" ++ cid) (cid ++ ".yaml") region
        = Except.ok body →
      kubernetes_config_path wd cid region sk ak download fs
        = (Except.ok (wd ++ "/kubernetes_config_" ++ cid),
           (wd ++ "/kubernetes_config_" ++ cid, body) :: fs)) := by
  constructor
  · intro e h
    simp [kubernetes_config_path, h]
  · intro body h
    simp [kubernetes_config_path, h]

/-- Witness for C10: a failing download returns its error with the filesystem
empty as before; a successful download writes the computed path. -/
theorem kubernetes_config_path_spec_witness :
    kubernetes_config_path "/ws" "c1" "nyc3" "sk" "ak" downloadAlwaysFails []
      = (Except.error ⟨SimpleErrorKind.Other, some "download failed"⟩, []) ∧
    kubernetes_config_path "/ws" "c1" "nyc3" "sk" "ak" downloadAlwaysYields []
      = (Except.ok "/ws/kubernetes_config_c1",
         [("/ws/kubernetes_config_c1", "kubeconfig-body")]) :=
  ⟨(kubernetes_config_path_spec "/ws" "c1" "nyc3" "sk" "ak" downloadAlwaysFails []).1
      ⟨SimpleErrorKind.Other, some "download failed"⟩ rfl,
   (kubernetes_config_path_spec "/ws" "c1" "nyc3" "sk" "ak" downloadAlwaysYields []).2
      "kubeconfig-body" rfl⟩

end Engine
